import Mathlib

/-!
Verification of the `dcr_pos_income` repository: a shallow embedding of the
external-command result cache (`dcrctl_cli` in `src/dcr_pos_income.py`), the
node query layer of both `src/dcr_pos_income.py` and `src/pos_income.py`, and
the income-calculation main loop, together with theorems settling the spec's
claims about them.

Modelling conventions:
- Python exceptions are modelled with `Except PyErr`.
- Python dicts are association lists (`alookup` / `aupdate` reproduce dict
  lookup and dict assignment, including insertion order).
- The external `dcrctl` subprocess and `json.loads` are modelled by an
  `Oracle`: a deterministic function from argument vectors to stdout text,
  plus parsing functions from raw text to the structured records the code
  reads fields from.  This matches the spec's view of the external command as
  an opaque black box returning text/JSON.
- Monetary amounts and prices are rationals (`ℚ`); Python floats at the
  magnitudes in the claims (2.5, 4.50, 11.25) are exact, so the embedding is
  faithful at every input the claims evaluate.
- Timestamps are integer unix seconds; a UTC calendar date `YYYY-MM-DD`
  (produced in the code by `strftime` on a UTC datetime) is represented by
  its day number `⌊t / 86400⌋`, a bijective renaming of the date strings.
-/

namespace DcrPos

/-- Python-level exceptions the embedded code can raise. -/
inductive PyErr : Type
  | typeError
  | keyError
  | jsonDecodeError
  | indexError
  | runtimeError (msg : String)
deriving DecidableEq

/-- Association-list lookup, modelling Python dict lookup (`d[k]`, `k in d`). -/
def alookup {α β : Type} [DecidableEq α] : List (α × β) → α → Option β
  | [], _ => none
  | (k, v) :: rest, key => if k = key then some v else alookup rest key

/-- Association-list update, modelling Python dict assignment `d[k] = v`:
updates an existing key in place, appends a new key at the end. -/
def aupdate {α β : Type} [DecidableEq α] : List (α × β) → α → β → List (α × β)
  | [], k, v => [(k, v)]
  | (k', v') :: rest, k, v =>
      if k' = k then (k', v) :: rest else (k', v') :: aupdate rest k v

/-- The deserialized contents of the cache file, as `load_cache` sees them:
either the file does not parse as JSON (`json.load` raises), or it parses to
an object with an optional `cache_version` field and the per-command-type
entry tables (`src/dcr_pos_income.py` lines 96-105). -/
inductive DiskFile : Type
  | undeserializable
  | parsed (version : Option Int) (entries : List (String × List (String × String)))
deriving DecidableEq

/-- The in-memory cache dict `self.cache`.  In Python it is a single dict
holding the integer `cache_version` alongside one inner dict per command
type; we split the version value from the string-keyed tables, and the cache
operations below reproduce the fact that the key `"cache_version"` is always
present in the dict and maps to an integer (not to an entry table). -/
structure Cache where
  version : Int
  entries : List (String × List (String × String))
deriving DecidableEq

/-- The state of a `dcrctl_cli` instance (`src/dcr_pos_income.py` lines
37-175).  `disk` models the cache file's current contents (`none` = absent);
`flushes` counts executions of `save_cache` and `invocations` counts
`subprocess.run` calls — ghost observers used to state the claims about
flush batching and external invocations.  When `no_cache` is set, Python
never assigns `self.cache`; every operation guards on `no_cache` first, so
the dummy value stored here is never read. -/
structure CliSt where
  no_cache : Bool
  cache : Cache
  unflushed_cache_cnt : Nat
  max_unflushed : Nat
  disk : Option DiskFile
  flushes : Nat
  invocations : Nat
deriving DecidableEq

/-- Replace the in-memory cache (`self.cache = ...`). -/
def withCache (st : CliSt) (c : Cache) : CliSt :=
  ⟨st.no_cache, c, st.unflushed_cache_cnt, st.max_unflushed, st.disk,
   st.flushes, st.invocations⟩

/-- Reset the unflushed-write counter (`self.unflushed_cache_cnt = 0`). -/
def zeroUnflushed (st : CliSt) : CliSt :=
  ⟨st.no_cache, st.cache, 0, st.max_unflushed, st.disk, st.flushes,
   st.invocations⟩

/-- Record one external process invocation (`subprocess.run`). -/
def bumpInv (st : CliSt) : CliSt :=
  ⟨st.no_cache, st.cache, st.unflushed_cache_cnt, st.max_unflushed, st.disk,
   st.flushes, st.invocations + 1⟩

/-- The class constant `dcrctl_cli.cache_version = 1`
(`src/dcr_pos_income.py` line 38). -/
def cache_version : Int := 1

/-- Python's `str.strip()`: drop whitespace from both ends (implemented
structurally over the character list so that it evaluates). -/
def pystrip (s : String) : String :=
  ⟨((s.data.dropWhile Char.isWhitespace).reverse.dropWhile
      Char.isWhitespace).reverse⟩

/-- `dcrctl_cli.cachable` (lines 116-121): only 2-argument commands are
cachable. -/
def cachable (cmd_args : List String) : Bool :=
  cmd_args.length == 2

/-- Pure lookup of a key in the cache's entry tables (what `get_cache` reads
when the command type is an ordinary string key). -/
def lookup2 (c : Cache) (ty a : String) : Option String :=
  match alookup c.entries ty with
  | none => none
  | some m => alookup m a

/-- Pure insertion mirroring `add_cache`'s mutation (lines 155-158): create
the inner dict if the command type is absent, then assign the argument key. -/
def insert_entry (c : Cache) (ty a v : String) : Cache :=
  ⟨c.version, aupdate c.entries ty (aupdate ((alookup c.entries ty).getD []) a v)⟩

/-- `dcrctl_cli.get_cache` (lines 123-139).  The command type and argument
pass through `str()` (identity on strings here).  The dict membership test
`cmd_type not in self.cache` succeeds for the literal key `"cache_version"`
(always present), and the subsequent `cmd_arg1 in self.cache[cmd_type]` then
applies `in` to the integer version value, which raises `TypeError`. -/
def get_cache (st : CliSt) (cmd_args : List String) : Except PyErr (Option String) :=
  if st.no_cache then Except.ok none
  else if ¬ cachable cmd_args then Except.ok none
  else
    let cmd_type := cmd_args.getD 0 ""
    let cmd_arg1 := cmd_args.getD 1 ""
    if cmd_type = "cache_version" then Except.error PyErr.typeError
    else
      match alookup st.cache.entries cmd_type with
      | none => Except.ok none
      | some m => Except.ok (alookup m cmd_arg1)

/-- `dcrctl_cli.save_cache` (lines 107-114): serialize the full in-memory
snapshot and atomically rename it onto the cache file.  The `flushes` ghost
counter records that a flush happened. -/
def save_cache (st : CliSt) : CliSt :=
  if st.no_cache then st
  else
    ⟨st.no_cache, st.cache, st.unflushed_cache_cnt, st.max_unflushed,
     some (DiskFile.parsed (some st.cache.version) st.cache.entries),
     st.flushes + 1, st.invocations⟩

/-- `dcrctl_cli.add_cache` (lines 141-163): no-op when caching is disabled,
the key is not cachable, or a prior entry exists; otherwise insert, bump the
unflushed counter, and flush (resetting the counter) once the counter
reaches `max_unflushed`. -/
def add_cache (st : CliSt) (cmd_args : List String) (result : String) :
    Except PyErr CliSt :=
  if st.no_cache then Except.ok st
  else if ¬ cachable cmd_args then Except.ok st
  else
    match get_cache st cmd_args with
    | Except.error e => Except.error e
    | Except.ok (some _) => Except.ok st
    | Except.ok none =>
      let cmd_type := cmd_args.getD 0 ""
      let cmd_arg1 := cmd_args.getD 1 ""
      let st1 : CliSt :=
        ⟨st.no_cache, insert_entry st.cache cmd_type cmd_arg1 result,
         st.unflushed_cache_cnt + 1, st.max_unflushed, st.disk, st.flushes,
         st.invocations⟩
      if st1.unflushed_cache_cnt ≥ st1.max_unflushed then
        Except.ok (zeroUnflushed (save_cache st1))
      else Except.ok st1

/-- `dcrctl_cli.load_cache` (lines 92-105).  Only `FileNotFoundError` is
caught: a file that does not deserialize propagates `json.JSONDecodeError`,
and a deserialized object without a `cache_version` field raises `KeyError`
at the `self.cache['cache_version']` access on line 103. -/
def load_cache (st : CliSt) : Except PyErr CliSt :=
  if st.no_cache then Except.ok st
  else
    match st.disk with
    | none => Except.ok (withCache st ⟨cache_version, []⟩)
    | some DiskFile.undeserializable => Except.error PyErr.jsonDecodeError
    | some (DiskFile.parsed none _) => Except.error PyErr.keyError
    | some (DiskFile.parsed (some v) es) =>
      if v ≠ cache_version then Except.ok (withCache st ⟨cache_version, []⟩)
      else Except.ok (withCache st ⟨v, es⟩)

/-- `dcrctl_cli.__init__` (lines 170-175): set the configuration fields and
load the cache. -/
def dcrctl_init (nc : Bool) (disk : Option DiskFile) (mx : Nat) :
    Except PyErr CliSt :=
  load_cache ⟨nc, ⟨cache_version, []⟩, 0, mx, disk, 0, 0⟩

/-- A transaction input as read from decoded-transaction JSON. -/
structure Vin where
  amountin : ℚ
  blockheight : Int
  txid : String
deriving DecidableEq

/-- A transaction output as read from decoded-transaction JSON. -/
structure Vout where
  value : ℚ
deriving DecidableEq

/-- A decoded transaction (`decoderawtransaction` output). -/
structure Tx where
  txid : String
  vin : List Vin
  vout : List Vout
deriving DecidableEq

/-- A block header (`getblockheader` output). -/
structure Header where
  hash : String
  time : Int
deriving DecidableEq

/-- The deterministic external world: `run` models `subprocess.run` of the
given argument vector (stdout text), and `parseTx` / `parseHeader` model
`json.loads` of the respective command outputs. -/
structure Oracle where
  run : List String → String
  parseTx : String → Tx
  parseHeader : String → Header

/-- `dcrctl_cli.exec_cmd` (lines 42-53): consult the cache, otherwise invoke
`['dcrctl'] + cmd_args` and store the stdout. -/
def exec_cmd (O : Oracle) (st : CliSt) (cmd_args : List String) :
    Except PyErr (String × CliSt) :=
  match get_cache st cmd_args with
  | Except.error e => Except.error e
  | Except.ok (some r) => Except.ok (r, st)
  | Except.ok none =>
    let out := O.run ("dcrctl" :: cmd_args)
    match add_cache (bumpInv st) cmd_args out with
    | Except.error e => Except.error e
    | Except.ok st' => Except.ok (out, st')

/-- `dcrctl_cli.getrawtransaction` (lines 56-59). -/
def getrawtransaction (O : Oracle) (st : CliSt) (txid : String) :
    Except PyErr (String × CliSt) :=
  match exec_cmd O st ["getrawtransaction", txid] with
  | Except.error e => Except.error e
  | Except.ok (r, st') => Except.ok (pystrip r, st')

/-- `dcrctl_cli.decoderawtransaction` (lines 61-65). -/
def decoderawtransaction (O : Oracle) (st : CliSt) (raw_tx : String) :
    Except PyErr (Tx × CliSt) :=
  match exec_cmd O st ["decoderawtransaction", raw_tx] with
  | Except.error e => Except.error e
  | Except.ok (r, st') => Except.ok (O.parseTx r, st')

/-- `dcrctl_cli.getblockhash` (lines 67-70). -/
def getblockhash (O : Oracle) (st : CliSt) (block_num : Int) :
    Except PyErr (String × CliSt) :=
  match exec_cmd O st ["getblockhash", toString block_num] with
  | Except.error e => Except.error e
  | Except.ok (r, st') => Except.ok (pystrip r, st')

/-- `dcrctl_cli.getblockheader` (lines 72-76). -/
def getblockheader (O : Oracle) (st : CliSt) (block_hash : String) :
    Except PyErr (Header × CliSt) :=
  match exec_cmd O st ["getblockheader", block_hash] with
  | Except.error e => Except.error e
  | Except.ok (r, st') => Except.ok (O.parseHeader r, st')

/-- `dcrctl_cli.get_decoded_tx` (lines 79-83).  Note: this variant performs
no sanity check on the decoded transaction's identifier. -/
def get_decoded_tx (O : Oracle) (st : CliSt) (txid : String) :
    Except PyErr (Tx × CliSt) :=
  match getrawtransaction O st txid with
  | Except.error e => Except.error e
  | Except.ok (raw, st') => decoderawtransaction O st' raw

/-- `dcrctl_cli.get_block_time` (lines 85-89). -/
def get_block_time (O : Oracle) (st : CliSt) (block_num : Int) :
    Except PyErr (Int × CliSt) :=
  match getblockhash O st block_num with
  | Except.error e => Except.error e
  | Except.ok (h, st') =>
    match getblockheader O st' h with
    | Except.error e => Except.error e
    | Except.ok (hd, st'') => Except.ok (hd.time, st'')

/-- The result a decode chain yields when nothing is cached: the exact
composite `json.loads(dcrctl decoderawtransaction (dcrctl getrawtransaction
txid).strip())` the code computes. -/
def uncached_decoded (O : Oracle) (txid : String) : Tx :=
  O.parseTx (O.run ["dcrctl", "decoderawtransaction",
    pystrip (O.run ["dcrctl", "getrawtransaction", txid])])

/-- The block time the `get_block_time` chain yields when nothing is cached. -/
def uncached_block_time (O : Oracle) (block_num : Int) : Int :=
  (O.parseHeader (O.run ["dcrctl", "getblockheader",
    pystrip (O.run ["dcrctl", "getblockhash", toString block_num])])).time

/-- `get_raw_tx` of `src/pos_income.py` (lines 31-34). -/
def pos_get_raw_tx (O : Oracle) (txid : String) : String :=
  pystrip (O.run ["dcrctl", "getrawtransaction", txid])

/-- The decoded transaction `pos_income.get_decoded_tx` obtains before its
sanity check (`src/pos_income.py` lines 37-40). -/
def pos_decoded (O : Oracle) (txid : String) : Tx :=
  O.parseTx (O.run ["dcrctl", "decoderawtransaction", pos_get_raw_tx O txid])

/-- `get_decoded_tx` of `src/pos_income.py` (lines 36-46), including the
fatal identifier sanity check. -/
def pos_get_decoded_tx (O : Oracle) (txid : String) : Except PyErr Tx :=
  let tx := pos_decoded O txid
  if tx.txid ≠ txid then
    Except.error (PyErr.runtimeError "TXID returned by dcrctl is not as expected!")
  else Except.ok tx

/-- `get_block_hash` of `src/pos_income.py` (lines 48-51). -/
def pos_get_block_hash (O : Oracle) (block_num : Int) : String :=
  pystrip (O.run ["dcrctl", "getblockhash", toString block_num])

/-- `get_block_header` of `src/pos_income.py` (lines 53-61), including the
fatal hash sanity check. -/
def pos_get_block_header (O : Oracle) (block_hash : String) : Except PyErr Header :=
  let header := O.parseHeader (O.run ["dcrctl", "getblockheader", block_hash])
  if header.hash ≠ block_hash then
    Except.error (PyErr.runtimeError "Block header returned by dcrctl is not as expected!")
  else Except.ok header

/-- `get_block_time` of `src/pos_income.py` (lines 63-67). -/
def pos_get_block_time (O : Oracle) (block_num : Int) : Except PyErr Int :=
  match pos_get_block_header O (pos_get_block_hash O block_num) with
  | Except.error e => Except.error e
  | Except.ok header => Except.ok header.time

/-- The price table: UTC calendar day number (representing the `YYYY-MM-DD`
string) to USD price. -/
def PriceDb : Type := List (Int × ℚ)

/-- The UTC calendar day of a unix timestamp, as produced by
`strftime('%Y-%m-%d')` on the UTC datetime: floor division by 86400. -/
def utcDay (t : Int) : Int := Int.fdiv t 86400

/-- `get_days_price` (`src/dcr_pos_income.py` lines 191-198): a missing date
is a hard `RuntimeError`, never zero or interpolated. -/
def get_days_price (db : PriceDb) (day : Int) : Except PyErr ℚ :=
  match alookup db day with
  | some p => Except.ok p
  | none => Except.error (PyErr.runtimeError "Could not find date in price database!")

/-- A record of the transactions file: `txid`, `blocktime`, `txtype`, `vout`. -/
structure TxRec where
  txid : String
  blocktime : Int
  txtype : String
  vout : Int
deriving DecidableEq

/-- The four running totals accumulated by `main`. -/
structure Totals where
  income_dcr : ℚ
  income_usd : ℚ
  fees_dcr : ℚ
  fees_usd : ℚ
deriving DecidableEq

/-- The numeric content of one per-vote output line: the vote's UTC day and
income, and the ticket's UTC day and fee (the formatted rendering itself is
glue and out of scope). -/
structure LineRec where
  vote_day : Int
  inc_dcr : ℚ
  inc_usd : ℚ
  ticket_day : Int
  fee_dcr : ℚ
  fee_usd : ℚ
deriving DecidableEq

/-- The date-range filter of `main` (`src/dcr_pos_income.py` line 247,
`src/pos_income.py` line 124): skip when `tx_date < first_date or tx_date >
last_date`, compared at full timestamp granularity. -/
def tx_in_range (first last t : Int) : Bool :=
  if t < first ∨ t > last then false else true

/-- List indexing `l[i]`, raising `IndexError` out of bounds. -/
def pyIndex {α : Type} (l : List α) (i : Nat) : Except PyErr α :=
  match l[i]? with
  | some x => Except.ok x
  | none => Except.error PyErr.indexError

/-- The body of `main`'s transaction loop in `src/dcr_pos_income.py` (lines
241-288): date filter, vote classification, subsidy income at the vote
date's price, and ticket-purchase fee at the ticket date's price. -/
def main_step (O : Oracle) (prices : PriceDb) (first last : Int)
    (st : CliSt) (tot : Totals) (lines : List LineRec) (r : TxRec) :
    Except PyErr (CliSt × Totals × List LineRec) := do
  if tx_in_range first last r.blocktime = false then
    Except.ok (st, tot, lines)
  else if r.txtype = "vote" ∧ r.vout = 0 then do
    let vday := utcDay r.blocktime
    let p_vday ← get_days_price prices vday
    let (tx_contents, st1) ← get_decoded_tx O st r.txid
    let vin0 ← pyIndex tx_contents.vin 0
    let subsidy := vin0.amountin
    let cur_dcr_income := subsidy
    let cur_usd_income := subsidy * p_vday
    let tot1 : Totals :=
      ⟨tot.income_dcr + cur_dcr_income, tot.income_usd + cur_usd_income,
       tot.fees_dcr, tot.fees_usd⟩
    let vin1 ← pyIndex tx_contents.vin 1
    let (ticket_block_time, st2) ← get_block_time O st1 vin1.blockheight
    let tday := utcDay ticket_block_time
    let p_tday ← get_days_price prices tday
    let (ticket_tx_contents, st3) ← get_decoded_tx O st2 vin1.txid
    let tvin0 ← pyIndex ticket_tx_contents.vin 0
    let tvout0 ← pyIndex ticket_tx_contents.vout 0
    let cur_dcr_fee := tvin0.amountin - tvout0.value
    let cur_usd_fee := cur_dcr_fee * p_tday
    let tot2 : Totals :=
      ⟨tot1.income_dcr, tot1.income_usd,
       tot1.fees_dcr + cur_dcr_fee, tot1.fees_usd + cur_usd_fee⟩
    Except.ok (st3, tot2,
      lines ++ [⟨vday, cur_dcr_income, cur_usd_income, tday, cur_dcr_fee, cur_usd_fee⟩])
  else
    Except.ok (st, tot, lines)

/-- The transaction loop of `main` in `src/dcr_pos_income.py`. -/
def main_loop (O : Oracle) (prices : PriceDb) (first last : Int) :
    CliSt → Totals → List LineRec → List TxRec →
    Except PyErr (CliSt × Totals × List LineRec)
  | st, tot, lines, [] => Except.ok (st, tot, lines)
  | st, tot, lines, r :: rs => do
    let (st', tot', lines') ← main_step O prices first last st tot lines r
    main_loop O prices first last st' tot' lines' rs

/-- `main` of `src/dcr_pos_income.py` (lines 236-291), from the transaction
file onward: construct the `dcrctl_cli`, run the loop, and report the totals
it prints at the end (formatted rendering elided). -/
def run_main (O : Oracle) (prices : PriceDb) (first last : Int)
    (nc : Bool) (disk : Option DiskFile) (recs : List TxRec) :
    Except PyErr (Totals × List LineRec) :=
  match dcrctl_init nc disk 10 with
  | Except.error e => Except.error e
  | Except.ok st =>
    match main_loop O prices first last st ⟨0, 0, 0, 0⟩ [] recs with
    | Except.error e => Except.error e
    | Except.ok (_, tot, lines) => Except.ok (tot, lines)

/-- The body of `main`'s transaction loop in `src/pos_income.py` (lines
118-162): same income computation through the checked, uncached query
functions. -/
def pos_step (O : Oracle) (prices : PriceDb) (first last : Int)
    (tot : Totals) (r : TxRec) : Except PyErr Totals := do
  if tx_in_range first last r.blocktime = false then
    Except.ok tot
  else if r.txtype = "vote" ∧ r.vout = 0 then do
    let p_vday ← get_days_price prices (utcDay r.blocktime)
    let tx_contents ← pos_get_decoded_tx O r.txid
    let vin0 ← pyIndex tx_contents.vin 0
    let subsidy := vin0.amountin
    let tot1 : Totals :=
      ⟨tot.income_dcr + subsidy, tot.income_usd + subsidy * p_vday,
       tot.fees_dcr, tot.fees_usd⟩
    let vin1 ← pyIndex tx_contents.vin 1
    let ticket_block_time ← pos_get_block_time O vin1.blockheight
    let p_tday ← get_days_price prices (utcDay ticket_block_time)
    let ticket_tx_contents ← pos_get_decoded_tx O vin1.txid
    let tvin0 ← pyIndex ticket_tx_contents.vin 0
    let tvout0 ← pyIndex ticket_tx_contents.vout 0
    let cur_dcr_fee := tvin0.amountin - tvout0.value
    Except.ok ⟨tot1.income_dcr, tot1.income_usd,
      tot1.fees_dcr + cur_dcr_fee, tot1.fees_usd + cur_dcr_fee * p_tday⟩
  else
    Except.ok tot

/-- The transaction loop of `main` in `src/pos_income.py`. -/
def pos_loop (O : Oracle) (prices : PriceDb) (first last : Int) :
    Totals → List TxRec → Except PyErr Totals
  | tot, [] => Except.ok tot
  | tot, r :: rs => do
    let tot' ← pos_step O prices first last tot r
    pos_loop O prices first last tot' rs

/-- Run a sequence of `exec_cmd` calls, collecting the returned stdout
texts in order. -/
def run_all (O : Oracle) : CliSt → List (List String) →
    Except PyErr (List String × CliSt)
  | st, [] => Except.ok ([], st)
  | st, args :: rest => do
    let (r, st') ← exec_cmd O st args
    let (rs, st'') ← run_all O st' rest
    Except.ok (r :: rs, st'')

/-- Run a sequence of `add_cache` calls. -/
def add_all : CliSt → List (List String × String) → Except PyErr CliSt
  | st, [] => Except.ok st
  | st, (k, v) :: rest => do
    let st' ← add_cache st k v
    add_all st' rest

/-- A cache is coherent with the oracle when every stored entry is the
oracle's answer for the corresponding invocation. -/
def CoherentCache (O : Oracle) (c : Cache) : Prop :=
  ∀ ty a v, lookup2 c ty a = some v → v = O.run ["dcrctl", ty, a]

/-- The `dcrctl_cli` states reachable with caching enabled: booted by the
constructor (with any on-disk file and threshold), then closed under
successful `add_cache` and `exec_cmd` calls. -/
inductive ReachSt : CliSt → Prop
  | boot (disk : Option DiskFile) (mx : Nat) (st : CliSt) :
      dcrctl_init false disk mx = Except.ok st → ReachSt st
  | store (st st' : CliSt) (args : List String) (v : String) :
      ReachSt st → add_cache st args v = Except.ok st' → ReachSt st'
  | exec (O : Oracle) (st st' : CliSt) (args : List String) (r : String) :
      ReachSt st → exec_cmd O st args = Except.ok (r, st') → ReachSt st'

/-- A freshly booted cache-enabled state: empty version-stamped cache,
default threshold 10, no cache file on disk. -/
def stEn : CliSt := ⟨false, ⟨cache_version, []⟩, 0, 10, none, 0, 0⟩

/-- The same fresh state with caching disabled. -/
def stDis : CliSt := ⟨true, ⟨cache_version, []⟩, 0, 10, none, 0, 0⟩

/-- A fresh cache-enabled state with flush threshold 2. -/
def stMax2 : CliSt := ⟨false, ⟨cache_version, []⟩, 0, 2, none, 0, 0⟩

/-- External command outputs for the spec's income scenario: one vote
transaction `v1` (subsidy 2.5, ticket at block 100), its ticket purchase
`t1` (input 10, first output 9.9). -/
def scen_run : List String → String
  | ["dcrctl", "getrawtransaction", "v1"] => "RAWV"
  | ["dcrctl", "decoderawtransaction", "RAWV"] => "DECV"
  | ["dcrctl", "getblockhash", "100"] => "BH"
  | ["dcrctl", "getblockheader", "BH"] => "HDR"
  | ["dcrctl", "getrawtransaction", "t1"] => "RAWT"
  | ["dcrctl", "decoderawtransaction", "RAWT"] => "DECT"
  | _ => ""

/-- Decoded-transaction JSON for the scenario's raw outputs. -/
def scen_parseTx : String → Tx
  | "DECV" => ⟨"v1", [⟨(5 : ℚ)/2, 0, ""⟩, ⟨0, 100, "t1"⟩], []⟩
  | "DECT" => ⟨"t1", [⟨10, 0, ""⟩], [⟨(99 : ℚ)/10⟩]⟩
  | _ => ⟨"", [], []⟩

/-- Block-header JSON for the scenario: the ticket's block is stamped at
2021-06-01T00:00:00Z. -/
def scen_parseHeader : String → Header
  | "HDR" => ⟨"BH", 1622505600⟩
  | _ => ⟨"", 0⟩

/-- The scenario oracle. -/
def scenOracle : Oracle := ⟨scen_run, scen_parseTx, scen_parseHeader⟩

/-- The scenario price table: 4.50 USD on 2021-06-01 (UTC day 18779). -/
def scenPrices : PriceDb := [(18779, (9 : ℚ)/2)]

/-- The scenario transaction record: a `vote`/`vout=0` transaction dated
2021-06-01T12:00:00Z. -/
def scenRec : TxRec := ⟨"v1", 1622548800, "vote", 0⟩

/-- An oracle whose decoded transactions always carry the identifier
`OTHER`, different from any requested txid in play. -/
def misOracle : Oracle := ⟨fun _ => "r", fun _ => ⟨"OTHER", [], []⟩, fun _ => ⟨"", 0⟩⟩

/-- An oracle answering `out` to every invocation. -/
def constOracle : Oracle := ⟨fun _ => "out", fun _ => ⟨"", [], []⟩, fun _ => ⟨"", 0⟩⟩

/-- Dict lookup after dict assignment: the assigned key reads back the new
value, every other key is untouched. -/
theorem alookup_aupdate {α β : Type} [DecidableEq α]
    (m : List (α × β)) (k : α) (v : β) (k' : α) :
    alookup (aupdate m k v) k' = if k' = k then some v else alookup m k' := by
  induction m with
  | nil =>
    by_cases h : k = k' <;> simp [aupdate, alookup, h, eq_comm]
  | cons p rest ih =>
    obtain ⟨pk, pv⟩ := p
    by_cases h : pk = k
    · subst h
      by_cases h' : pk = k'
      · simp [aupdate, alookup, h']
      · have h'' : ¬k' = pk := fun hh => h' hh.symm
        simp [aupdate, alookup, h', h'']
    · by_cases h1 : pk = k' <;> by_cases h2 : k' = k <;>
        simp_all [aupdate, alookup]

/-- Cache-table lookup after `add_cache`'s insertion. -/
theorem lookup2_insert_entry (c : Cache) (ty a v : String) (ty' a' : String) :
    lookup2 (insert_entry c ty a v) ty' a' =
      if ty' = ty ∧ a' = a then some v else lookup2 c ty' a' := by
  unfold lookup2 insert_entry
  simp only [alookup_aupdate]
  by_cases hty : ty' = ty
  · subst hty
    cases hm : alookup c.entries ty' with
    | none =>
      by_cases ha : a' = a
      · simp [alookup_aupdate, ha, alookup]
      · have ha' : ¬a = a' := fun hh => ha hh.symm
        simp [alookup_aupdate, ha, ha', alookup]
    | some m =>
      by_cases ha : a' = a
      · simp [alookup_aupdate, ha]
      · have ha' : ¬a = a' := fun hh => ha hh.symm
        simp [alookup_aupdate, ha, ha']
  · simp [hty]

/-- `get_cache` on an enabled state and an ordinary two-argument key is the
pure table lookup. -/
theorem get_cache_pair (st : CliSt) (a b : String)
    (hnc : st.no_cache = false) (hcv : a ≠ "cache_version") :
    get_cache st [a, b] = Except.ok (lookup2 st.cache a b) := by
  unfold get_cache lookup2
  simp only [hnc, cachable]
  cases h : alookup st.cache.entries a <;> simp [hcv, h]

/-- `add_cache` on an enabled state, an ordinary two-argument key, and a
fresh entry: insert, bump the counter, and flush exactly when the counter
reaches the threshold. -/
theorem add_cache_fresh (st : CliSt) (a b v : String)
    (hnc : st.no_cache = false) (hcv : a ≠ "cache_version")
    (hfresh : lookup2 st.cache a b = none) :
    add_cache st [a, b] v = Except.ok
      (if st.unflushed_cache_cnt + 1 ≥ st.max_unflushed then
        zeroUnflushed (save_cache
          ⟨st.no_cache, insert_entry st.cache a b v, st.unflushed_cache_cnt + 1,
           st.max_unflushed, st.disk, st.flushes, st.invocations⟩)
       else
        ⟨st.no_cache, insert_entry st.cache a b v, st.unflushed_cache_cnt + 1,
         st.max_unflushed, st.disk, st.flushes, st.invocations⟩) := by
  unfold add_cache
  simp [hnc, cachable, get_cache_pair st a b hnc hcv, hfresh]
  split <;> rfl

/-- With caching disabled, `exec_cmd` always invokes the external command
and only the invocation counter changes. -/
theorem exec_cmd_nocache (O : Oracle) (st : CliSt) (args : List String)
    (h : st.no_cache = true) :
    exec_cmd O st args = Except.ok (O.run ("dcrctl" :: args), bumpInv st) := by
  unfold exec_cmd get_cache add_cache
  simp [h, bumpInv]

/-- With caching disabled, `get_decoded_tx` computes the uncached composite. -/
theorem get_decoded_tx_nocache (O : Oracle) (st : CliSt) (txid : String)
    (h : st.no_cache = true) :
    get_decoded_tx O st txid =
      Except.ok (uncached_decoded O txid, bumpInv (bumpInv st)) := by
  unfold get_decoded_tx getrawtransaction decoderawtransaction uncached_decoded
  simp [exec_cmd_nocache, h, bumpInv]

/-- With caching disabled, `get_block_time` computes the uncached composite. -/
theorem get_block_time_nocache (O : Oracle) (st : CliSt) (block_num : Int)
    (h : st.no_cache = true) :
    get_block_time O st block_num =
      Except.ok (uncached_block_time O block_num, bumpInv (bumpInv st)) := by
  unfold get_block_time getblockhash getblockheader uncached_block_time
  simp [exec_cmd_nocache, h, bumpInv]

/-- `pyIndex` on an in-bounds index. -/
theorem pyIndex_eq {α : Type} (l : List α) (i : Nat) (x : α)
    (h : l[i]? = some x) : pyIndex l i = Except.ok x := by
  unfold pyIndex
  rw [h]

/-- A successful `add_cache` never changes the disable flag, the version
stamp, or the threshold. -/
theorem add_cache_preserves (st : CliSt) (args : List String) (v : String)
    (st' : CliSt) (h : add_cache st args v = Except.ok st') :
    st'.no_cache = st.no_cache ∧ st'.cache.version = st.cache.version ∧
      st'.max_unflushed = st.max_unflushed := by
  unfold add_cache at h
  split at h
  · cases h
    exact ⟨rfl, rfl, rfl⟩
  · split at h
    · cases h
      exact ⟨rfl, rfl, rfl⟩
    · split at h
      · simp at h
      · cases h
        exact ⟨rfl, rfl, rfl⟩
      · dsimp only at h
        split at h
        · cases h
          refine ⟨?_, ?_, ?_⟩ <;>
            simp [zeroUnflushed, save_cache, insert_entry] <;> split <;> rfl
        · cases h
          exact ⟨rfl, rfl, rfl⟩

/-- A successful `exec_cmd` never changes the disable flag, the version
stamp, or the threshold. -/
theorem exec_cmd_preserves (O : Oracle) (st : CliSt) (args : List String)
    (r : String) (st' : CliSt) (h : exec_cmd O st args = Except.ok (r, st')) :
    st'.no_cache = st.no_cache ∧ st'.cache.version = st.cache.version ∧
      st'.max_unflushed = st.max_unflushed := by
  unfold exec_cmd at h
  split at h
  · simp at h
  · rename_i r0 heq
    simp only [Except.ok.injEq, Prod.mk.injEq] at h
    obtain ⟨-, h2⟩ := h
    subst h2
    exact ⟨rfl, rfl, rfl⟩
  · dsimp only at h
    split at h
    · simp at h
    · rename_i st2 hadd
      simp only [Except.ok.injEq, Prod.mk.injEq] at h
      obtain ⟨-, h2⟩ := h
      subst h2
      exact add_cache_preserves (bumpInv st) args _ st2 hadd

/-- Loading with no cache file on disk yields an empty version-stamped
cache and the run proceeds. -/
theorem load_cache_missing (c : Cache) (u mx fl iv : Nat) :
    load_cache ⟨false, c, u, mx, none, fl, iv⟩ =
      Except.ok ⟨false, ⟨cache_version, []⟩, u, mx, none, fl, iv⟩ := rfl

/-- Loading a present cache file that does not deserialize propagates the
deserialization error. -/
theorem load_cache_undeser (c : Cache) (u mx fl iv : Nat) :
    load_cache ⟨false, c, u, mx, some DiskFile.undeserializable, fl, iv⟩ =
      Except.error PyErr.jsonDecodeError := rfl

/-- Loading a deserialized object without a `cache_version` field raises
`KeyError`. -/
theorem load_cache_noversion (c : Cache) (u mx fl iv : Nat)
    (es : List (String × List (String × String))) :
    load_cache ⟨false, c, u, mx, some (DiskFile.parsed none es), fl, iv⟩ =
      Except.error PyErr.keyError := rfl

/-- Loading a deserialized object with a `cache_version` field: keep it when
the version matches, otherwise replace it by an empty stamped cache. -/
theorem load_cache_somev (c : Cache) (u mx fl iv : Nat) (v : Int)
    (es : List (String × List (String × String))) :
    load_cache ⟨false, c, u, mx, some (DiskFile.parsed (some v) es), fl, iv⟩ =
      (if v = cache_version then
        Except.ok ⟨false, ⟨v, es⟩, u, mx, some (DiskFile.parsed (some v) es), fl, iv⟩
       else
        Except.ok ⟨false, ⟨cache_version, []⟩, u, mx,
          some (DiskFile.parsed (some v) es), fl, iv⟩) := by
  by_cases hv : v = cache_version
  · simp [load_cache, withCache, hv]
  · simp [load_cache, withCache, hv]

/-- A state produced by the constructor with caching enabled has the flag
off and carries the current version stamp. -/
theorem dcrctl_init_enabled (disk : Option DiskFile) (mx : Nat) (st : CliSt)
    (h : dcrctl_init false disk mx = Except.ok st) :
    st.no_cache = false ∧ st.cache.version = cache_version := by
  unfold dcrctl_init at h
  cases disk with
  | none =>
    rw [load_cache_missing] at h
    injection h with h
    subst h
    exact ⟨rfl, rfl⟩
  | some f =>
    cases f with
    | undeserializable =>
      rw [load_cache_undeser] at h
      simp at h
    | parsed vq es =>
      cases vq with
      | none =>
        rw [load_cache_noversion] at h
        simp at h
      | some v =>
        rw [load_cache_somev] at h
        by_cases hv : v = cache_version
        · rw [if_pos hv] at h
          injection h with h
          subst h
          exact ⟨rfl, hv⟩
        · rw [if_neg hv] at h
          injection h with h
          subst h
          exact ⟨rfl, rfl⟩

/-- `exec_cmd` on a cache hit returns the stored value and leaves the state
untouched. -/
theorem exec_cmd_hit (O : Oracle) (st : CliSt) (a b v : String)
    (hnc : st.no_cache = false) (ha : a ≠ "cache_version")
    (hl : lookup2 st.cache a b = some v) :
    exec_cmd O st [a, b] = Except.ok (v, st) := by
  unfold exec_cmd
  rw [get_cache_pair st a b hnc ha, hl]

/-- `exec_cmd` on a cache miss invokes the command once and stores the
result (flushing when the counter reaches the threshold). -/
theorem exec_cmd_miss (O : Oracle) (st : CliSt) (a b : String)
    (hnc : st.no_cache = false) (ha : a ≠ "cache_version")
    (hl : lookup2 st.cache a b = none) :
    exec_cmd O st [a, b] = Except.ok (O.run ["dcrctl", a, b],
      if st.unflushed_cache_cnt + 1 ≥ st.max_unflushed then
        zeroUnflushed (save_cache
          ⟨st.no_cache, insert_entry st.cache a b (O.run ["dcrctl", a, b]),
           st.unflushed_cache_cnt + 1, st.max_unflushed, st.disk, st.flushes,
           st.invocations + 1⟩)
      else
        ⟨st.no_cache, insert_entry st.cache a b (O.run ["dcrctl", a, b]),
         st.unflushed_cache_cnt + 1, st.max_unflushed, st.disk, st.flushes,
         st.invocations + 1⟩) := by
  unfold exec_cmd
  rw [get_cache_pair st a b hnc ha, hl]
  dsimp only
  rw [add_cache_fresh (bumpInv st) a b (O.run ["dcrctl", a, b])
        (by simpa [bumpInv] using hnc) ha (by simpa [bumpInv] using hl)]
  rfl

/-- `exec_cmd` on a non-cachable argument list always invokes the command
and leaves the cache untouched. -/
theorem exec_cmd_notcachable (O : Oracle) (st : CliSt) (args : List String)
    (h : cachable args = false) :
    exec_cmd O st args = Except.ok (O.run ("dcrctl" :: args), bumpInv st) := by
  unfold exec_cmd get_cache add_cache
  simp [h, bumpInv]

/-- Inserting the oracle's own answer preserves cache coherence. -/
theorem coherent_insert (O : Oracle) (c : Cache) (a b : String)
    (hco : CoherentCache O c) :
    CoherentCache O (insert_entry c a b (O.run ["dcrctl", a, b])) := by
  intro ty x v hv
  rw [lookup2_insert_entry] at hv
  by_cases hh : ty = a ∧ x = b
  · rw [if_pos hh] at hv
    injection hv with hv
    obtain ⟨h1, h2⟩ := hh
    subst h1
    subst h2
    exact hv.symm
  · rw [if_neg hh] at hv
    exact hco ty x v hv

/-- On a coherent enabled state, `exec_cmd` returns exactly the oracle's
answer (whether cached or fresh) and preserves coherence, provided no
two-argument key collides with the version-stamp key. -/
theorem exec_cmd_coherent (O : Oracle) (st : CliSt) (args : List String)
    (hnc : st.no_cache = false) (hco : CoherentCache O st.cache)
    (hcv : ∀ a b, args = [a, b] → a ≠ "cache_version") :
    ∃ st', exec_cmd O st args = Except.ok (O.run ("dcrctl" :: args), st') ∧
      st'.no_cache = false ∧ CoherentCache O st'.cache := by
  by_cases hlen : args.length = 2
  · obtain ⟨a, b, rfl⟩ := List.length_eq_two.mp hlen
    have ha : a ≠ "cache_version" := hcv a b rfl
    cases hl : lookup2 st.cache a b with
    | some v =>
      have hv := hco a b v hl
      refine ⟨st, ?_, hnc, hco⟩
      rw [exec_cmd_hit O st a b v hnc ha hl, hv]
    | none =>
      refine ⟨_, exec_cmd_miss O st a b hnc ha hl, ?_, ?_⟩
      · split <;> simp [zeroUnflushed, save_cache, hnc]
      · have hci := coherent_insert O st.cache a b hco
        split
        · simp only [zeroUnflushed, save_cache]
          split <;> exact hci
        · exact hci
  · have hc : cachable args = false := by
      simp [cachable]
      omega
    exact ⟨bumpInv st,
      exec_cmd_notcachable O st args hc, by simpa [bumpInv] using hnc,
      by simpa [bumpInv] using hco⟩

/-- Monadic bind on a successful `Except` computation. -/
theorem except_bind_ok {ε α β : Type} (a : α) (f : α → Except ε β) :
    (Except.ok (ε := ε) a >>= f) = f a := rfl

/-- With caching disabled, a sequence of `exec_cmd` calls returns exactly
the oracle's answers. -/
theorem run_all_nocache (O : Oracle) (argss : List (List String)) :
    ∀ (st : CliSt), st.no_cache = true →
    ∃ st', run_all O st argss =
      Except.ok (argss.map (fun args => O.run ("dcrctl" :: args)), st') := by
  induction argss with
  | nil => exact fun st _ => ⟨st, rfl⟩
  | cons args rest ih =>
    intro st h
    obtain ⟨st', hih⟩ := ih (bumpInv st) (by simpa [bumpInv] using h)
    exact ⟨st', by
      simp [run_all, exec_cmd_nocache O st args h, except_bind_ok, hih]⟩

/-- With caching enabled from a coherent state, a sequence of `exec_cmd`
calls returns exactly the oracle's answers, provided no two-argument key
collides with the version-stamp key. -/
theorem run_all_coherent (O : Oracle) (argss : List (List String)) :
    ∀ (st : CliSt), st.no_cache = false → CoherentCache O st.cache →
    (∀ args ∈ argss, ∀ a b, args = [a, b] → a ≠ "cache_version") →
    ∃ st', run_all O st argss =
      Except.ok (argss.map (fun args => O.run ("dcrctl" :: args)), st') := by
  induction argss with
  | nil => exact fun st _ _ _ => ⟨st, rfl⟩
  | cons args rest ih =>
    intro st hnc hco hcv
    obtain ⟨st1, hexec, hnc1, hco1⟩ :=
      exec_cmd_coherent O st args hnc hco (hcv args (by simp))
    obtain ⟨st', hih⟩ := ih st1 hnc1 hco1 (fun q hq => hcv q (by simp [hq]))
    exact ⟨st', by simp [run_all, hexec, except_bind_ok, hih]⟩

/-- Running a batch of fresh, pairwise-distinct, ordinary two-argument
stores from a counter below the threshold: every store succeeds, and one
flush happens exactly when the counter reaches the threshold at the last
store (otherwise the counter just advances). -/
theorem add_all_spec (l : List (List String × String)) :
    ∀ (st : CliSt), st.no_cache = false →
    st.unflushed_cache_cnt < st.max_unflushed →
    st.unflushed_cache_cnt + l.length ≤ st.max_unflushed →
    (∀ p ∈ l, ∃ a b, p.1 = [a, b] ∧ a ≠ "cache_version" ∧
       lookup2 st.cache a b = none) →
    l.Pairwise (fun p q => p.1 ≠ q.1) →
    ∃ st', add_all st l = Except.ok st' ∧
      st'.no_cache = false ∧ st'.max_unflushed = st.max_unflushed ∧
      (if st.unflushed_cache_cnt + l.length < st.max_unflushed then
        st'.flushes = st.flushes ∧
        st'.unflushed_cache_cnt = st.unflushed_cache_cnt + l.length
       else
        st'.flushes = st.flushes + 1 ∧ st'.unflushed_cache_cnt = 0) := by
  induction l with
  | nil =>
    intro st hnc hlt _ _ _
    refine ⟨st, rfl, hnc, rfl, ?_⟩
    rw [if_pos (by simpa using hlt)]
    simp
  | cons p rest ih =>
    obtain ⟨k, v⟩ := p
    intro st hnc hlt hle hfresh hpw
    obtain ⟨a, b, hk, ha, hl⟩ := hfresh (k, v) (by simp)
    simp only at hk
    subst hk
    have hadd := add_cache_fresh st a b v hnc ha hl
    simp only [List.length_cons] at hle ⊢
    by_cases hflush : st.unflushed_cache_cnt + 1 ≥ st.max_unflushed
    · -- the first store reaches the threshold, so it is the only one
      have hrest : rest = [] := by
        have : rest.length = 0 := by omega
        exact List.length_eq_zero.mp this
      subst hrest
      rw [if_pos hflush] at hadd
      refine ⟨zeroUnflushed (save_cache
          ⟨st.no_cache, insert_entry st.cache a b v, st.unflushed_cache_cnt + 1,
           st.max_unflushed, st.disk, st.flushes, st.invocations⟩),
        by simp [add_all, hadd, except_bind_ok], ?_, ?_, ?_⟩
      · simp [zeroUnflushed, save_cache, hnc]
      · simp [zeroUnflushed, save_cache, hnc]
      · rw [if_neg (by omega)]
        constructor
        · simp [zeroUnflushed, save_cache, hnc]
        · simp [zeroUnflushed, save_cache, hnc]
    · rw [if_neg hflush] at hadd
      set st1 : CliSt :=
        ⟨st.no_cache, insert_entry st.cache a b v, st.unflushed_cache_cnt + 1,
         st.max_unflushed, st.disk, st.flushes, st.invocations⟩ with hst1
      have hnc1 : st1.no_cache = false := hnc
      have hlt1 : st1.unflushed_cache_cnt < st1.max_unflushed := by
        simp [hst1]
        omega
      have hle1 : st1.unflushed_cache_cnt + rest.length ≤ st1.max_unflushed := by
        simp [hst1]
        omega
      have hfresh1 : ∀ q ∈ rest, ∃ a' b', q.1 = [a', b'] ∧
          a' ≠ "cache_version" ∧ lookup2 st1.cache a' b' = none := by
        intro q hq
        obtain ⟨a', b', hq1, ha', hl'⟩ := hfresh q (by simp [hq])
        refine ⟨a', b', hq1, ha', ?_⟩
        have hne : ([a, b] : List String) ≠ q.1 :=
          (List.pairwise_cons.mp hpw).1 q hq
        rw [hst1]
        simp only [lookup2_insert_entry]
        rw [if_neg]
        · exact hl'
        · rintro ⟨rfl, rfl⟩
          exact hne hq1.symm
      have hpw1 : rest.Pairwise (fun p q => p.1 ≠ q.1) :=
        (List.pairwise_cons.mp hpw).2
      obtain ⟨st', hall, hnc', hmax', hcond⟩ :=
        ih st1 hnc1 hlt1 hle1 hfresh1 hpw1
      refine ⟨st', by simp [add_all, hadd, except_bind_ok, hall], hnc',
        by simpa using hmax', ?_⟩
      have harith : st.unflushed_cache_cnt + (rest.length + 1) =
          st.unflushed_cache_cnt + 1 + rest.length := by omega
      rw [harith]
      have hcnt : st1.unflushed_cache_cnt = st.unflushed_cache_cnt + 1 := rfl
      have hflu : st1.flushes = st.flushes := rfl
      have hmaxeq : st1.max_unflushed = st.max_unflushed := rfl
      rw [hcnt, hflu, hmaxeq] at hcond
      exact hcond

/-- Every reachable cache-enabled state keeps the flag off and the version
stamp equal to the expected constant. -/
theorem reach_invariant (st : CliSt) (h : ReachSt st) :
    st.no_cache = false ∧ st.cache.version = cache_version := by
  induction h with
  | boot disk mx st hb => exact dcrctl_init_enabled disk mx st hb
  | store st st' args v _ hadd ih =>
    obtain ⟨h1, h2, -⟩ := add_cache_preserves st args v st' hadd
    exact ⟨h1.trans ih.1, h2.trans ih.2⟩
  | exec O st st' args r _ hexec ih =>
    obtain ⟨h1, h2, -⟩ := exec_cmd_preserves O st args r st' hexec
    exact ⟨h1.trans ih.1, h2.trans ih.2⟩

/-- A `store` into a state that already holds an entry for the key is a
complete no-op. -/
theorem add_cache_hit (st : CliSt) (args : List String) (v₀ v' : String)
    (h : get_cache st args = Except.ok (some v₀)) :
    add_cache st args v' = Except.ok st := by
  by_cases hb : st.no_cache = true
  · exfalso
    unfold get_cache at h
    rw [if_pos hb] at h
    simp at h
  · by_cases hc : cachable args = true
    · unfold add_cache
      rw [if_neg hb, if_neg (by simp [hc]), h]
    · exfalso
      unfold get_cache at h
      rw [if_neg hb, if_pos (by simp [hc])] at h
      simp at h

/-- C1 (amended: the key's command type must differ from the literal
version-stamp key `"cache_version"`): with caching enabled, storing a value
for a fresh cachable key and immediately looking the key up returns exactly
that value, and a second store with a different value is a no-op that leaves
the state — in particular the originally stored value — intact. -/
theorem C1_store_then_lookup (st : CliSt) (a b v v' : String)
    (hnc : st.no_cache = false) (hcv : a ≠ "cache_version")
    (hfresh : get_cache st [a, b] = Except.ok none) (_hne : v' ≠ v) :
    ∃ st1, add_cache st [a, b] v = Except.ok st1 ∧
      get_cache st1 [a, b] = Except.ok (some v) ∧
      add_cache st1 [a, b] v' = Except.ok st1 := by
  have hl : lookup2 st.cache a b = none :=
    Except.ok.inj ((get_cache_pair st a b hnc hcv).symm.trans hfresh)
  have hadd := add_cache_fresh st a b v hnc hcv hl
  by_cases hf : st.unflushed_cache_cnt + 1 ≥ st.max_unflushed
  · rw [if_pos hf] at hadd
    set st1 := zeroUnflushed (save_cache
      ⟨st.no_cache, insert_entry st.cache a b v, st.unflushed_cache_cnt + 1,
       st.max_unflushed, st.disk, st.flushes, st.invocations⟩) with hst1
    have hnc1 : st1.no_cache = false := by
      simp [hst1, zeroUnflushed, save_cache, hnc]
    have hcache1 : st1.cache = insert_entry st.cache a b v := by
      simp [hst1, zeroUnflushed, save_cache, hnc]
    have hg : get_cache st1 [a, b] = Except.ok (some v) := by
      rw [get_cache_pair st1 a b hnc1 hcv, hcache1, lookup2_insert_entry,
        if_pos ⟨rfl, rfl⟩]
    exact ⟨st1, hadd, hg, add_cache_hit st1 [a, b] v v' hg⟩
  · rw [if_neg hf] at hadd
    set st1 : CliSt :=
      ⟨st.no_cache, insert_entry st.cache a b v, st.unflushed_cache_cnt + 1,
       st.max_unflushed, st.disk, st.flushes, st.invocations⟩ with hst1
    have hnc1 : st1.no_cache = false := hnc
    have hg : get_cache st1 [a, b] = Except.ok (some v) := by
      rw [get_cache_pair st1 a b hnc1 hcv]
      have hcache1 : st1.cache = insert_entry st.cache a b v := rfl
      rw [hcache1, lookup2_insert_entry, if_pos ⟨rfl, rfl⟩]
    exact ⟨st1, hadd, hg, add_cache_hit st1 [a, b] v v' hg⟩

/-- Witness for C1: store/lookup/second-store on a fresh booted state. -/
theorem C1_store_then_lookup_witness :
    ∃ st1, add_cache stEn ["getblockhash", "5"] "h1" = Except.ok st1 ∧
      get_cache st1 ["getblockhash", "5"] = Except.ok (some "h1") ∧
      add_cache st1 ["getblockhash", "5"] "h2" = Except.ok st1 :=
  C1_store_then_lookup stEn "getblockhash" "5" "h1" "h2" rfl (by decide)
    rfl (by decide)

/-- Counterexample to C1 as stated: the two-element argument list
`["cache_version", "x"]` is cachable by the arity rule, yet a store followed
by a lookup of that key raises `TypeError` instead of returning the stored
value, because the command type collides with the version-stamp key held in
the same dict. -/
theorem C1_counterexample :
    cachable ["cache_version", "x"] = true ∧
    Except.bind (add_cache stEn ["cache_version", "x"] "v")
      (fun st1 => get_cache st1 ["cache_version", "x"]) =
      Except.error PyErr.typeError :=
  ⟨rfl, rfl⟩

/-- C3 (amended): only a missing cache file is replaced by an empty
version-stamped cache with the run proceeding; a file that is present but
cannot be deserialized propagates the deserialization error, and a file that
deserializes to an object without a `cache_version` field raises `KeyError`
— in both of those cases `load_cache` raises instead of resetting. -/
theorem C3_load_failures (c : Cache) (u mx fl iv : Nat)
    (es : List (String × List (String × String))) :
    load_cache ⟨false, c, u, mx, none, fl, iv⟩ =
      Except.ok ⟨false, ⟨cache_version, []⟩, u, mx, none, fl, iv⟩ ∧
    load_cache ⟨false, c, u, mx, some DiskFile.undeserializable, fl, iv⟩ =
      Except.error PyErr.jsonDecodeError ∧
    load_cache ⟨false, c, u, mx, some (DiskFile.parsed none es), fl, iv⟩ =
      Except.error PyErr.keyError :=
  ⟨load_cache_missing c u mx fl iv, load_cache_undeser c u mx fl iv,
   load_cache_noversion c u mx fl iv es⟩

/-- Counterexample to C3 as stated: a present-but-undeserializable cache
file, and a deserialized object lacking `cache_version`, both make
`load_cache` raise (the claim says neither is fatal). -/
theorem C3_counterexample :
    load_cache ⟨false, ⟨cache_version, []⟩, 0, 10,
        some DiskFile.undeserializable, 0, 0⟩ =
      Except.error PyErr.jsonDecodeError ∧
    load_cache ⟨false, ⟨cache_version, []⟩, 0, 10,
        some (DiskFile.parsed none [("getblockhash", [("5", "h")])]), 0, 0⟩ =
      Except.error PyErr.keyError :=
  ⟨rfl, rfl⟩

/-- C4: loading a cache file that deserializes to an object whose
`cache_version` differs from the expected constant replaces the cache by an
empty one stamped with the current version, without raising and without
carrying over any entry of the old file. -/
theorem C4_version_mismatch (c : Cache) (u mx fl iv : Nat) (v : Int)
    (es : List (String × List (String × String))) (hv : v ≠ cache_version) :
    load_cache ⟨false, c, u, mx, some (DiskFile.parsed (some v) es), fl, iv⟩ =
      Except.ok ⟨false, ⟨cache_version, []⟩, u, mx,
        some (DiskFile.parsed (some v) es), fl, iv⟩ := by
  rw [load_cache_somev, if_neg hv]

/-- Witness for C4: a version-2 file with one entry loads as the empty
version-1 cache. -/
theorem C4_version_mismatch_witness :
    load_cache ⟨false, ⟨cache_version, []⟩, 0, 10,
        some (DiskFile.parsed (some 2) [("getblockhash", [("5", "h")])]), 0, 0⟩ =
      Except.ok ⟨false, ⟨cache_version, []⟩, 0, 10,
        some (DiskFile.parsed (some 2) [("getblockhash", [("5", "h")])]), 0, 0⟩ :=
  C4_version_mismatch ⟨cache_version, []⟩ 0 10 0 0 2
    [("getblockhash", [("5", "h")])] (by decide)

/-- C6: for every argument list whose length is not 2, `get_cache` always
misses and `add_cache` leaves the state (in particular the cache mapping)
completely unchanged; conversely every 2-element argument list is cachable,
whatever command name it carries. -/
theorem C6_arity_gate (st : CliSt) (args : List String) (v : String)
    (h : args.length ≠ 2) :
    get_cache st args = Except.ok none ∧ add_cache st args v = Except.ok st ∧
    (∀ l : List String, l.length = 2 → cachable l = true) := by
  have hc : cachable args = false := by
    simp [cachable]
    omega
  refine ⟨?_, ?_, ?_⟩
  · unfold get_cache
    by_cases hb : st.no_cache = true <;> simp [hb, hc]
  · unfold add_cache
    by_cases hb : st.no_cache = true <;> simp [hb, hc]
  · intro l hl
    simp [cachable, hl]

/-- Witness for C6: a one-argument command bypasses the cache. -/
theorem C6_arity_gate_witness :
    get_cache stEn ["getblockhash"] = Except.ok none ∧
    add_cache stEn ["getblockhash"] "h" = Except.ok stEn ∧
    (∀ l : List String, l.length = 2 → cachable l = true) :=
  C6_arity_gate stEn ["getblockhash"] "h" (by decide)

/-- C2: persisting any reachable cache-enabled in-memory cache with
`save_cache` and reloading it with `load_cache` (no external change in
between) yields an identical in-memory mapping; in particular the persisted
version stamp passes load-time validation. -/
theorem C2_save_load_roundtrip (st : CliSt) (h : ReachSt st) :
    ∃ st₂, load_cache (save_cache st) = Except.ok st₂ ∧ st₂.cache = st.cache := by
  obtain ⟨hnc, hv⟩ := reach_invariant st h
  have hsave : save_cache st =
      ⟨st.no_cache, st.cache, st.unflushed_cache_cnt, st.max_unflushed,
       some (DiskFile.parsed (some st.cache.version) st.cache.entries),
       st.flushes + 1, st.invocations⟩ := by
    unfold save_cache
    rw [if_neg (by simp [hnc])]
  rw [hsave, hnc, hv]
  rw [load_cache_somev, if_pos rfl]
  refine ⟨_, rfl, ?_⟩
  show (⟨cache_version, st.cache.entries⟩ : Cache) = st.cache
  rw [← hv]

/-- Witness for C2: round-trip of the freshly booted state. -/
theorem C2_save_load_roundtrip_witness :
    ∃ st₂, load_cache (save_cache stEn) = Except.ok st₂ ∧
      st₂.cache = stEn.cache :=
  C2_save_load_roundtrip stEn (ReachSt.boot none 10 stEn rfl)

/-- C5: with caching enabled and the unflushed counter at zero, a batch of
exactly `max_unflushed` successful stores of new cachable entries performs
exactly one automatic flush and leaves the counter reset to zero, while a
batch of `max_unflushed - 1` such stores performs no flush and leaves the
counter at `max_unflushed - 1`. -/
theorem C5_flush_batching (st : CliSt) (l1 l2 : List (List String × String))
    (hnc : st.no_cache = false) (h0 : st.unflushed_cache_cnt = 0)
    (hmax : 1 ≤ st.max_unflushed)
    (hf1 : ∀ p ∈ l1, ∃ a b, p.1 = [a, b] ∧ a ≠ "cache_version" ∧
      lookup2 st.cache a b = none)
    (hd1 : l1.Pairwise (fun p q => p.1 ≠ q.1))
    (hl1 : l1.length = st.max_unflushed)
    (hf2 : ∀ p ∈ l2, ∃ a b, p.1 = [a, b] ∧ a ≠ "cache_version" ∧
      lookup2 st.cache a b = none)
    (hd2 : l2.Pairwise (fun p q => p.1 ≠ q.1))
    (hl2 : l2.length = st.max_unflushed - 1) :
    (∃ st', add_all st l1 = Except.ok st' ∧ st'.flushes = st.flushes + 1 ∧
      st'.unflushed_cache_cnt = 0) ∧
    (∃ st'', add_all st l2 = Except.ok st'' ∧ st''.flushes = st.flushes ∧
      st''.unflushed_cache_cnt = st.max_unflushed - 1) := by
  constructor
  · obtain ⟨st', hall, -, -, hcond⟩ :=
      add_all_spec l1 st hnc (by omega) (by omega) hf1 hd1
    rw [if_neg (by omega)] at hcond
    exact ⟨st', hall, hcond.1, hcond.2⟩
  · obtain ⟨st'', hall, -, -, hcond⟩ :=
      add_all_spec l2 st hnc (by omega) (by omega) hf2 hd2
    rw [if_pos (by omega)] at hcond
    obtain ⟨hc1, hc2⟩ := hcond
    exact ⟨st'', hall, hc1, by omega⟩

/-- Witness for C5: with threshold 2, two fresh stores flush once and reset
the counter; one fresh store flushes nothing and leaves the counter at 1. -/
theorem C5_flush_batching_witness :
    (∃ st', add_all stMax2
        [(["getblockhash", "1"], "a"), (["getblockhash", "2"], "b")] =
        Except.ok st' ∧ st'.flushes = stMax2.flushes + 1 ∧
        st'.unflushed_cache_cnt = 0) ∧
    (∃ st'', add_all stMax2 [(["getblockhash", "1"], "a")] = Except.ok st'' ∧
      st''.flushes = stMax2.flushes ∧
      st''.unflushed_cache_cnt = stMax2.max_unflushed - 1) :=
  C5_flush_batching stMax2
    [(["getblockhash", "1"], "a"), (["getblockhash", "2"], "b")]
    [(["getblockhash", "1"], "a")] rfl rfl (by decide)
    (by
      intro p hp
      rcases List.mem_cons.mp hp with h | hp2
      · subst h
        exact ⟨"getblockhash", "1", rfl, by decide, rfl⟩
      · rcases List.mem_cons.mp hp2 with h | h
        · subst h
          exact ⟨"getblockhash", "2", rfl, by decide, rfl⟩
        · simp at h)
    (by decide) rfl
    (by
      intro p hp
      rcases List.mem_cons.mp hp with h | h
      · subst h
        exact ⟨"getblockhash", "1", rfl, by decide, rfl⟩
      · simp at h)
    (by decide) rfl

/-- C7 (amended: the identifier sanity checks live in `src/pos_income.py`;
the `dcrctl_cli` variant in `src/dcr_pos_income.py` performs no such check):
in `pos_income.py`, a decoded transaction whose identifier differs from the
requested txid makes `get_decoded_tx` raise a fatal `RuntimeError`, a block
header whose hash differs from the requested hash makes `get_block_header`
raise, and a run whose first qualifying vote record decodes to a mismatched
identifier aborts before any totals are produced. -/
theorem C7_sanity_checks :
    (∀ (O : Oracle) (txid : String), (pos_decoded O txid).txid ≠ txid →
      pos_get_decoded_tx O txid =
        Except.error (PyErr.runtimeError "TXID returned by dcrctl is not as expected!")) ∧
    (∀ (O : Oracle) (bh : String),
      (O.parseHeader (O.run ["dcrctl", "getblockheader", bh])).hash ≠ bh →
      pos_get_block_header O bh =
        Except.error (PyErr.runtimeError "Block header returned by dcrctl is not as expected!")) ∧
    (∀ (O : Oracle) (prices : PriceDb) (first last : Int) (tot : Totals)
      (r : TxRec) (rs : List TxRec) (p : ℚ),
      tx_in_range first last r.blocktime = true →
      r.txtype = "vote" → r.vout = 0 →
      get_days_price prices (utcDay r.blocktime) = Except.ok p →
      (pos_decoded O r.txid).txid ≠ r.txid →
      pos_loop O prices first last tot (r :: rs) =
        Except.error (PyErr.runtimeError "TXID returned by dcrctl is not as expected!")) := by
  refine ⟨?_, ?_, ?_⟩
  · intro O txid hmis
    unfold pos_get_decoded_tx
    rw [if_pos hmis]
  · intro O bh hmis
    unfold pos_get_block_header
    rw [if_pos hmis]
  · intro O prices first last tot r rs p hin hty hv0 hp hmis
    have hdec : pos_get_decoded_tx O r.txid =
        Except.error (PyErr.runtimeError "TXID returned by dcrctl is not as expected!") := by
      unfold pos_get_decoded_tx
      rw [if_pos hmis]
    have hstep : pos_step O prices first last tot r =
        Except.error (PyErr.runtimeError "TXID returned by dcrctl is not as expected!") := by
      unfold pos_step
      rw [if_neg (by simp [hin]), if_pos ⟨hty, hv0⟩, hp, except_bind_ok, hdec]
      rfl
    unfold pos_loop
    rw [hstep]
    rfl

/-- Witness for C7: a concrete mismatching oracle triggers the fatal error
in the decode check and aborts a one-record run before any totals. -/
theorem C7_sanity_checks_witness :
    pos_get_decoded_tx misOracle "v1" =
      Except.error (PyErr.runtimeError "TXID returned by dcrctl is not as expected!") ∧
    pos_loop misOracle [(0, 1)] 0 0 ⟨0, 0, 0, 0⟩ [⟨"v1", 0, "vote", 0⟩] =
      Except.error (PyErr.runtimeError "TXID returned by dcrctl is not as expected!") :=
  ⟨C7_sanity_checks.1 misOracle "v1" (by decide),
   C7_sanity_checks.2.2 misOracle [(0, 1)] 0 0 ⟨0, 0, 0, 0⟩
     ⟨"v1", 0, "vote", 0⟩ [] 1 rfl rfl rfl rfl (by decide)⟩

/-- Counterexample to C7 as stated over both source files: the
`dcrctl_cli.get_decoded_tx` of `dcr_pos_income.py` returns a decoded
transaction whose identifier differs from the requested txid without any
error — the run proceeds. -/
theorem C7_counterexample :
    (get_decoded_tx misOracle stDis "v1").map (fun p => p.1.txid) =
      Except.ok "OTHER" ∧ ("OTHER" : String) ≠ "v1" :=
  ⟨rfl, by decide⟩

/-- C8: a transaction record outside `[first_date, last_date]` is excluded
from the totals entirely (the loop state is exactly as if the record were
absent), in both variants of the main loop; the filter compares full
timestamps inclusively, so a record exactly at `last_date` midnight is in
range while one a second later is not. -/
theorem C8_date_filter (O : Oracle) (prices : PriceDb) (first last : Int)
    (st : CliSt) (tot tot' : Totals) (lines : List LineRec)
    (r : TxRec) (rs : List TxRec) :
    (r.blocktime < first ∨ r.blocktime > last →
      main_loop O prices first last st tot lines (r :: rs) =
        main_loop O prices first last st tot lines rs) ∧
    (r.blocktime < first ∨ r.blocktime > last →
      pos_loop O prices first last tot' (r :: rs) =
        pos_loop O prices first last tot' rs) ∧
    (first ≤ last → tx_in_range first last last = true) ∧
    tx_in_range first last (last + 1) = false := by
  refine ⟨?_, ?_, ?_, ?_⟩
  · intro h
    have hf : tx_in_range first last r.blocktime = false := by
      unfold tx_in_range
      rw [if_pos h]
    have hskip : main_step O prices first last st tot lines r =
        Except.ok (st, tot, lines) := by
      unfold main_step
      rw [hf, if_pos rfl]
    conv_lhs => rw [main_loop]
    rw [hskip, except_bind_ok]
  · intro h
    have hf : tx_in_range first last r.blocktime = false := by
      unfold tx_in_range
      rw [if_pos h]
    have hskip : pos_step O prices first last tot' r = Except.ok tot' := by
      unfold pos_step
      rw [hf, if_pos rfl]
    conv_lhs => rw [pos_loop]
    rw [hskip, except_bind_ok]
  · intro h
    unfold tx_in_range
    rw [if_neg (by omega)]
  · unfold tx_in_range
    rw [if_pos (by omega)]

/-- Witness for C8: a vote record dated after the range leaves a one-record
run identical to the empty run, and the boundary facts hold at 5/6. -/
theorem C8_date_filter_witness :
    main_loop scenOracle scenPrices 0 5 stEn ⟨0, 0, 0, 0⟩ []
        [⟨"x", 99, "vote", 0⟩] =
      main_loop scenOracle scenPrices 0 5 stEn ⟨0, 0, 0, 0⟩ [] [] ∧
    pos_loop scenOracle scenPrices 0 5 ⟨0, 0, 0, 0⟩ [⟨"x", 99, "vote", 0⟩] =
      pos_loop scenOracle scenPrices 0 5 ⟨0, 0, 0, 0⟩ [] ∧
    tx_in_range 0 5 5 = true ∧ tx_in_range 0 5 6 = false :=
  ⟨(C8_date_filter scenOracle scenPrices 0 5 stEn ⟨0, 0, 0, 0⟩ ⟨0, 0, 0, 0⟩ []
      ⟨"x", 99, "vote", 0⟩ []).1 (Or.inr (by decide)),
   (C8_date_filter scenOracle scenPrices 0 5 stEn ⟨0, 0, 0, 0⟩ ⟨0, 0, 0, 0⟩ []
      ⟨"x", 99, "vote", 0⟩ []).2.1 (Or.inr (by decide)),
   (C8_date_filter scenOracle scenPrices 0 5 stEn ⟨0, 0, 0, 0⟩ ⟨0, 0, 0, 0⟩ []
      ⟨"x", 99, "vote", 0⟩ []).2.2.1 (by decide),
   (C8_date_filter scenOracle scenPrices 0 5 stEn ⟨0, 0, 0, 0⟩ ⟨0, 0, 0, 0⟩ []
      ⟨"x", 99, "vote", 0⟩ []).2.2.2⟩

/-- C9: for an in-range `vote`/`vout=0` record, the income booked is the
decoded vote transaction's first input amount-in (the subsidy), its fiat
value is the subsidy times the price on the vote's date, and the ticket
purchase fee is the ticket transaction's first input amount-in minus its
first output value, valued at the ticket date's price; in particular the
spec's concrete scenario (price 4.50 on 2021-06-01, one vote dated
2021-06-01T12:00:00Z with resolved subsidy 2.50000000) yields an income
line of 2.5 DCR and 11.25 USD, and the grand totals match. -/
theorem C9_vote_income :
    (∀ (O : Oracle) (prices : PriceDb) (first last : Int) (st : CliSt)
      (tot : Totals) (lines : List LineRec) (r : TxRec)
      (p_v p_t : ℚ) (e0 e1 t0 : Vin) (w0 : Vout),
      st.no_cache = true →
      tx_in_range first last r.blocktime = true →
      r.txtype = "vote" → r.vout = 0 →
      get_days_price prices (utcDay r.blocktime) = Except.ok p_v →
      (uncached_decoded O r.txid).vin[0]? = some e0 →
      (uncached_decoded O r.txid).vin[1]? = some e1 →
      get_days_price prices (utcDay (uncached_block_time O e1.blockheight)) =
        Except.ok p_t →
      (uncached_decoded O e1.txid).vin[0]? = some t0 →
      (uncached_decoded O e1.txid).vout[0]? = some w0 →
      main_step O prices first last st tot lines r = Except.ok
        (bumpInv (bumpInv (bumpInv (bumpInv (bumpInv (bumpInv st))))),
         ⟨tot.income_dcr + e0.amountin, tot.income_usd + e0.amountin * p_v,
          tot.fees_dcr + (t0.amountin - w0.value),
          tot.fees_usd + (t0.amountin - w0.value) * p_t⟩,
         lines ++ [⟨utcDay r.blocktime, e0.amountin, e0.amountin * p_v,
           utcDay (uncached_block_time O e1.blockheight),
           t0.amountin - w0.value, (t0.amountin - w0.value) * p_t⟩])) ∧
    run_main scenOracle scenPrices 0 2000000000 false none [scenRec] =
      Except.ok (⟨(5 : ℚ)/2, (45 : ℚ)/4, (1 : ℚ)/10, (9 : ℚ)/20⟩,
        [⟨18779, (5 : ℚ)/2, (45 : ℚ)/4, 18779, (1 : ℚ)/10, (9 : ℚ)/20⟩]) := by
  constructor
  · intro O prices first last st tot lines r p_v p_t e0 e1 t0 w0
      hnc hin hty hv0 hpv he0 he1 hpt ht0 hw0
    unfold main_step
    rw [hin, if_neg (by simp : ¬(true = false)), if_pos ⟨hty, hv0⟩]
    simp only [hpv, except_bind_ok,
      get_decoded_tx_nocache O st r.txid hnc,
      get_block_time_nocache O (bumpInv (bumpInv st)) e1.blockheight
        (by simp [bumpInv, hnc]),
      get_decoded_tx_nocache O (bumpInv (bumpInv (bumpInv (bumpInv st))))
        e1.txid (by simp [bumpInv, hnc]),
      pyIndex_eq _ _ _ he0, pyIndex_eq _ _ _ he1,
      pyIndex_eq _ _ _ ht0, pyIndex_eq _ _ _ hw0, hpt]
  · have hday1 : Int.fdiv 1622548800 86400 = 18779 := by decide
    have hday2 : Int.fdiv 1622505600 86400 = 18779 := by decide
    have hs1 : pystrip "RAWV" = "RAWV" := by decide
    have hs2 : pystrip "BH" = "BH" := by decide
    have hs3 : pystrip "RAWT" = "RAWT" := by decide
    have hstr : toString (100 : Int) = "100" := by decide
    simp [run_main, dcrctl_init, load_cache, withCache, cache_version,
      main_loop, main_step, tx_in_range, scenRec, scenPrices, scenOracle,
      scen_run, scen_parseTx, scen_parseHeader, get_days_price, utcDay,
      get_decoded_tx, getrawtransaction, decoderawtransaction, getblockhash,
      getblockheader, get_block_time, exec_cmd, get_cache, add_cache,
      cachable, lookup2, insert_entry, save_cache, zeroUnflushed, bumpInv,
      alookup, aupdate, pyIndex, except_bind_ok, hday1, hday2, hs1, hs2, hs3,
      hstr]
    norm_num

/-- Witness for C9's general clause: the scenario data driven through a
cache-disabled state (every hypothesis discharged concretely). -/
theorem C9_vote_income_witness :
    main_step scenOracle scenPrices 0 2000000000 stDis ⟨0, 0, 0, 0⟩ []
        scenRec = Except.ok
      (bumpInv (bumpInv (bumpInv (bumpInv (bumpInv (bumpInv stDis))))),
       ⟨0 + ((5 : ℚ)/2), 0 + ((5 : ℚ)/2) * ((9 : ℚ)/2),
        0 + ((10 : ℚ) - (99 : ℚ)/10), 0 + ((10 : ℚ) - (99 : ℚ)/10) * ((9 : ℚ)/2)⟩,
       [] ++ [⟨utcDay 1622548800, (5 : ℚ)/2, ((5 : ℚ)/2) * ((9 : ℚ)/2),
         utcDay (uncached_block_time scenOracle 100),
         (10 : ℚ) - (99 : ℚ)/10, ((10 : ℚ) - (99 : ℚ)/10) * ((9 : ℚ)/2)⟩]) :=
  C9_vote_income.1 scenOracle scenPrices 0 2000000000 stDis ⟨0, 0, 0, 0⟩ []
    scenRec ((9 : ℚ)/2) ((9 : ℚ)/2) ⟨(5 : ℚ)/2, 0, ""⟩ ⟨0, 100, "t1"⟩
    ⟨10, 0, ""⟩ ⟨(99 : ℚ)/10⟩ rfl rfl rfl rfl
    (by
      have h1 : utcDay 1622548800 = 18779 := by decide
      simp [scenRec, h1, get_days_price, scenPrices, alookup])
    (by
      have hs1 : pystrip "RAWV" = "RAWV" := by decide
      simp [uncached_decoded, scenOracle, scen_run, scen_parseTx, scenRec, hs1])
    (by
      have hs1 : pystrip "RAWV" = "RAWV" := by decide
      simp [uncached_decoded, scenOracle, scen_run, scen_parseTx, scenRec, hs1])
    (by
      have hs2 : pystrip "BH" = "BH" := by decide
      have hstr : toString (100 : Int) = "100" := by decide
      have h2 : utcDay 1622505600 = 18779 := by decide
      simp [uncached_block_time, scenOracle, scen_run, scen_parseHeader, hstr,
        hs2, h2, get_days_price, scenPrices, alookup])
    (by
      have hs3 : pystrip "RAWT" = "RAWT" := by decide
      simp [uncached_decoded, scenOracle, scen_run, scen_parseTx, hs3])
    (by
      have hs3 : pystrip "RAWT" = "RAWT" := by decide
      simp [uncached_decoded, scenOracle, scen_run, scen_parseTx, hs3])

/-- C10 (amended: provided no two-element argument list starts with the
literal version-stamp key `"cache_version"`): with caching enabled, a second
`exec_cmd` with the same two-element argument list returns the first call's
result with the state unchanged, so the two calls together perform at most
one external invocation; and against a deterministic external command, a
run of `exec_cmd` calls from a coherent cache returns exactly the result
sequence of the same run with caching disabled. -/
theorem C10_cache_transparency (O : Oracle) (st : CliSt)
    (hnc : st.no_cache = false) :
    (∀ (args : List String) (a b r1 : String) (st1 : CliSt),
      args = [a, b] → a ≠ "cache_version" →
      exec_cmd O st args = Except.ok (r1, st1) →
      exec_cmd O st1 args = Except.ok (r1, st1) ∧
        st1.invocations ≤ st.invocations + 1) ∧
    (∀ argss : List (List String), CoherentCache O st.cache →
      (∀ args ∈ argss, ∀ a b, args = [a, b] → a ≠ "cache_version") →
      (run_all O st argss).map Prod.fst =
        (run_all O ⟨true, st.cache, st.unflushed_cache_cnt, st.max_unflushed,
          st.disk, st.flushes, st.invocations⟩ argss).map Prod.fst) := by
  constructor
  · intro args a b r1 st1 hargs ha hexec
    subst hargs
    cases hl : lookup2 st.cache a b with
    | some v =>
      have h2 := (exec_cmd_hit O st a b v hnc ha hl).symm.trans hexec
      have h3 := Except.ok.inj h2
      simp only [Prod.mk.injEq] at h3
      obtain ⟨hr, hst⟩ := h3
      subst hr
      subst hst
      exact ⟨exec_cmd_hit O st a b v hnc ha hl, by omega⟩
    | none =>
      have h2 := (exec_cmd_miss O st a b hnc ha hl).symm.trans hexec
      have h3 := Except.ok.inj h2
      simp only [Prod.mk.injEq] at h3
      obtain ⟨hr, hst⟩ := h3
      subst hr
      subst hst
      by_cases hf : st.unflushed_cache_cnt + 1 ≥ st.max_unflushed
      · rw [if_pos hf]
        constructor
        · refine exec_cmd_hit O _ a b _ ?_ ha ?_
          · simp [zeroUnflushed, save_cache, hnc]
          · have hc : (zeroUnflushed (save_cache
                ⟨st.no_cache, insert_entry st.cache a b
                   (O.run ["dcrctl", a, b]),
                 st.unflushed_cache_cnt + 1, st.max_unflushed, st.disk,
                 st.flushes, st.invocations + 1⟩)).cache =
                insert_entry st.cache a b (O.run ["dcrctl", a, b]) := by
              simp [zeroUnflushed, save_cache, hnc]
            rw [hc, lookup2_insert_entry, if_pos ⟨rfl, rfl⟩]
        · simp [zeroUnflushed, save_cache, hnc]
      · rw [if_neg hf]
        constructor
        · refine exec_cmd_hit O _ a b _ hnc ha ?_
          show lookup2 (insert_entry st.cache a b (O.run ["dcrctl", a, b])) a b = _
          rw [lookup2_insert_entry, if_pos ⟨rfl, rfl⟩]
        · simp
  · intro argss hco hcv
    obtain ⟨stE, hE⟩ := run_all_coherent O argss st hnc hco hcv
    obtain ⟨stD, hD⟩ := run_all_nocache O argss
      ⟨true, st.cache, st.unflushed_cache_cnt, st.max_unflushed, st.disk,
       st.flushes, st.invocations⟩ rfl
    rw [hE, hD]
    rfl

/-- Witness for C10: two identical cached invocations against a constant
oracle return the same result sequence as the cache-disabled run. -/
theorem C10_cache_transparency_witness :
    (run_all constOracle stEn
        [["getblockhash", "7"], ["getblockhash", "7"]]).map Prod.fst =
      (run_all constOracle ⟨true, stEn.cache, stEn.unflushed_cache_cnt,
          stEn.max_unflushed, stEn.disk, stEn.flushes, stEn.invocations⟩
        [["getblockhash", "7"], ["getblockhash", "7"]]).map Prod.fst :=
  (C10_cache_transparency constOracle stEn rfl).2
    [["getblockhash", "7"], ["getblockhash", "7"]]
    (by
      intro ty a v h
      simp [stEn, lookup2, alookup] at h)
    (by
      intro args hargs a b heq
      subst heq
      simp at hargs
      obtain ⟨ha, -⟩ := hargs
      subst ha
      decide)

/-- Counterexample to C10 as stated: for the two-element argument list
`["cache_version", "x"]`, `exec_cmd` with caching enabled raises `TypeError`
while the identical call with caching disabled succeeds, so the cached and
uncached result sequences differ. -/
theorem C10_counterexample :
    exec_cmd constOracle stEn ["cache_version", "x"] =
      Except.error PyErr.typeError ∧
    (exec_cmd constOracle stDis ["cache_version", "x"]).map Prod.fst =
      Except.ok "out" :=
  ⟨rfl, rfl⟩

end DcrPos
